import Mathlib

/-
Formal model of the temperature monitor in main.py (danglock/ict-temperature).

Modelling conventions:
- Python floats are modelled exactly, as rationals extended with the special
  values inf, -inf and nan (constructor PyFloat); arithmetic on the finite
  part is exact rational arithmetic.
- Python exceptions are modelled as values of type PyError returned through
  Except; an uncaught exception is an Except.error result.
- Python str.split with an explicit one-character separator is modelled by
  splitOnChar (no collapsing of empty fields, empty string gives one field).
- The grammar accepted by the Python builtin float(str) is modelled over the
  ASCII range by pyStrToFloat: optional surrounding whitespace, optional
  sign, then inf / infinity / nan (case-insensitive) or a decimal mantissa
  with optional fraction, optional exponent and PEP-515 underscores strictly
  between digits.
- Filesystem access is a parameter: the glob result is the list stored in
  the Thermometer, and reading a device file is a function from path to
  content handed to get_temperature.
-/

/-! Character classes (ASCII), matching what CPython float parsing uses. -/

def isDig (c : Char) : Bool := decide (48 ≤ c.toNat ∧ c.toNat ≤ 57)

def digitVal (c : Char) : Nat := c.toNat - 48

def isPyWs (c : Char) : Bool :=
  decide (c.toNat = 32 ∨ c.toNat = 9 ∨ c.toNat = 10 ∨ c.toNat = 11 ∨
    c.toNat = 12 ∨ c.toNat = 13)

def asciiLower (c : Char) : Char :=
  if 65 ≤ c.toNat ∧ c.toNat ≤ 90 then Char.ofNat (c.toNat + 32) else c

def stripWs (l : List Char) : List Char :=
  ((l.dropWhile isPyWs).reverse.dropWhile isPyWs).reverse

/-! Python str.split(sep) for a single-character separator: no collapsing,
    and the empty string yields one empty field. -/

def splitOnChar (sep : Char) : List Char → List (List Char)
  | [] => [[]]
  | c :: rest =>
    match splitOnChar sep rest with
    | [] => if c = sep then [[], []] else [[c]]
    | h :: t => if c = sep then [] :: h :: t else (c :: h) :: t

def pySplit (sep : Char) (s : String) : List String :=
  (splitOnChar sep s.data).map String.mk

/-- Python slicing s[n:] on a string. -/
def pyDrop (n : Nat) (s : String) : String := String.mk (s.data.drop n)

/-! The value domain of the Python float type. -/

inductive PyFloat
  | finite (q : ℚ)
  | inf
  | negInf
  | nan
deriving DecidableEq

/-- Python expression float(...) / 1000 on each kind of float value;
    the finite case is exact rational division. -/
def pyFloatDiv1000 : PyFloat → PyFloat
  | PyFloat.finite q => PyFloat.finite (q / 1000)
  | PyFloat.inf => PyFloat.inf
  | PyFloat.negInf => PyFloat.negInf
  | PyFloat.nan => PyFloat.nan

/-! The grammar of the Python builtin float(str), over ASCII. -/

/-- Consumes a run of digits with PEP-515 underscores strictly between
    digits; pending is true when the previous character was an underscore.
    Returns the accumulated value, the digit count so far and the rest, or
    none when an underscore is misplaced (which makes the whole float
    literal invalid, as in CPython). -/
def parseDigitsAux : List Char → Bool → Nat → Nat → Option (Nat × Nat × List Char)
  | [], pending, acc, cnt => if pending then none else some (acc, cnt, [])
  | c :: rest, pending, acc, cnt =>
    if isDig c then parseDigitsAux rest false (10 * acc + digitVal c) (cnt + 1)
    else if c = '_' then
      if pending then none else parseDigitsAux rest true acc cnt
    else
      if pending then none else some (acc, cnt, c :: rest)

/-- A digit group: at least one leading digit, then digits with internal
    underscores. -/
def parseUDigits (l : List Char) : Option (Nat × Nat × List Char) :=
  match l with
  | [] => none
  | c :: rest => if isDig c then parseDigitsAux rest false (digitVal c) 1 else none

/-- Mantissa: integer digits with optional fraction, or a leading point
    followed by fraction digits. -/
def parseMantissa (l : List Char) : Option (ℚ × List Char) :=
  match parseUDigits l with
  | some (iv, _, r1) =>
    match r1 with
    | '.' :: r2 =>
      match parseUDigits r2 with
      | some (fv, fc, r3) => some ((iv : ℚ) + (fv : ℚ) / (10 : ℚ) ^ fc, r3)
      | none => some ((iv : ℚ), r2)
    | _ => some ((iv : ℚ), r1)
  | none =>
    match l with
    | '.' :: r2 => (parseUDigits r2).map (fun x => ((x.1 : ℚ) / (10 : ℚ) ^ x.2.1, x.2.2))
    | _ => none

/-- Optional exponent part; when the input does not start with e or E it
    consumes nothing. -/
def parseExp (l : List Char) : Option (ℤ × List Char) :=
  match l with
  | [] => some (0, [])
  | c :: rest =>
    if c = 'e' ∨ c = 'E' then
      match rest with
      | [] => none
      | d :: r2 =>
        if d = '+' then (parseUDigits r2).map (fun x => ((x.1 : ℤ), x.2.2))
        else if d = '-' then (parseUDigits r2).map (fun x => (-(x.1 : ℤ), x.2.2))
        else (parseUDigits (d :: r2)).map (fun x => ((x.1 : ℤ), x.2.2))
    else some (0, c :: rest)

/-- The unsigned body after stripping whitespace and an optional sign:
    inf / infinity / nan case-insensitively, or mantissa and exponent with
    nothing left over. -/
def parseUnsignedPy (l : List Char) (neg : Bool) : Option PyFloat :=
  let low := l.map asciiLower
  if low = ['i', 'n', 'f'] ∨ low = ['i', 'n', 'f', 'i', 'n', 'i', 't', 'y'] then
    some (if neg then PyFloat.negInf else PyFloat.inf)
  else if low = ['n', 'a', 'n'] then some PyFloat.nan
  else
    match parseMantissa l with
    | none => none
    | some (m, r1) =>
      match parseExp r1 with
      | none => none
      | some (e, rest) =>
        if rest = [] then
          some (PyFloat.finite ((if neg then -m else m) * (10 : ℚ) ^ e))
        else none

/-- The Python builtin float(str): strip whitespace, optional sign, body. -/
def pyStrToFloat (s : String) : Option PyFloat :=
  match stripWs s.data with
  | [] => none
  | c :: r =>
    if c = '+' then parseUnsignedPy r false
    else if c = '-' then parseUnsignedPy r true
    else parseUnsignedPy (c :: r) false

/-! Python exceptions raised by the sensor-reading code. -/

inductive PyError
  | indexError (msg : String)
  | valueError (msg : String)
  | exception (msg : String)
deriving DecidableEq

def errMsg : PyError → String
  | PyError.indexError m => m
  | PyError.valueError m => m
  | PyError.exception m => m

/-- Python list indexing lst[i]: IndexError when out of range. -/
def listIndex {α : Type} (l : List α) (i : Nat) : Except PyError α :=
  match l[i]? with
  | some a => Except.ok a
  | none => Except.error (PyError.indexError "list index out of range")

/-- Python float(s) as an expression: ValueError carrying the offending
    string when the literal is invalid. -/
def floatCall (s : String) : Except PyError PyFloat :=
  match pyStrToFloat s with
  | some v => Except.ok v
  | none => Except.error (PyError.valueError ("could not convert string to float: " ++ s))

/-! The Thermometer class, lines 23-62 of main.py. -/

/-- The Thermometer object: ds18b20_roots holds the glob matches computed in
    init from the device_root pattern. -/
structure Thermometer where
  ds18b20_roots : List String
deriving DecidableEq

/-- Lines 42-49: true when the glob found at least one device. -/
def check_thermometer_connection (t : Thermometer) : Bool :=
  if t.ds18b20_roots.length > 0 then true else false

/-- The exception raised at line 62 when no device root was resolved; the
    DeviceNotFoundError of the specification. -/
def DeviceNotFoundError : PyError :=
  PyError.exception "unable to get temperature. Please check device connection, or configured ds18b20_roots!"

/-- Lines 52-62: read the first device file, take line 2 (index 1), token 10
    (index 9) of its space-split, drop two characters, convert with float and
    divide by 1000. readFile models the filesystem content of each path. -/
def get_temperature (t : Thermometer) (readFile : String → String) : Except PyError PyFloat :=
  if check_thermometer_connection t then
    match listIndex t.ds18b20_roots 0 with
    | Except.error e => Except.error e
    | Except.ok root =>
      match listIndex (pySplit '\n' (readFile root)) 1 with
      | Except.error e => Except.error e
      | Except.ok second_line =>
        match listIndex (pySplit ' ' second_line) 9 with
        | Except.error e => Except.error e
        | Except.ok temperature_data =>
          match floatCall (pyDrop 2 temperature_data) with
          | Except.error e => Except.error e
          | Except.ok v => Except.ok (pyFloatDiv1000 v)
  else
    Except.error DeviceNotFoundError

/-! The platform check, lines 97-101. -/

/-- A Python object as far as the == at line 98 is concerned: the operands
    there are the imported platform module and two str literals. -/
inductive PyObj
  | moduleObj (name : String)
  | strObj (s : String)
deriving DecidableEq

/-- Python == between these objects: objects of different builtin types
    (module versus str) compare unequal. -/
def pyEqB : PyObj → PyObj → Bool
  | PyObj.moduleObj a, PyObj.moduleObj b => a == b
  | PyObj.strObj a, PyObj.strObj b => a == b
  | _, _ => false

def platformModule : PyObj := PyObj.moduleObj "platform"

/-- Lines 97-101: the source compares the imported platform MODULE object to
    the strings linux and linux2; the value sys.platform would give on the
    host (the hostPlatform argument) is never consulted. -/
def is_linux_os (hostPlatform : String) : Bool :=
  if pyEqB platformModule (PyObj.strObj "linux") || pyEqB platformModule (PyObj.strObj "linux2") then
    true
  else
    false

/-! The startup sequence under the main guard, lines 114-135. -/

/-- Outcome of the startup sequence: either the process called exit with the
    given code, or the monitoring loop was entered; diagReads counts how many
    diagnostic sensor reads were performed before that. -/
inductive MainOutcome
  | exited (code : Nat) (diagReads : Nat)
  | loopEntered (diagReads : Nat)
deriving DecidableEq

/-- Lines 130-135: the single diagnostic get_temperature call in a try block
    whose except prints the error and calls exit(1). -/
def startupAfterPlatformCheck (t : Thermometer) (rf : String → String) : MainOutcome :=
  match get_temperature t rf with
  | Except.ok _ => MainOutcome.loopEntered 1
  | Except.error _ => MainOutcome.exited 1 1

/-- Lines 114-135: platform check (exit 1 on failure), message of the day
    (console only), object construction, then the diagnostic read. -/
def mainBootstrap (host : String) (t : Thermometer) (rf : String → String) : MainOutcome :=
  if is_linux_os host then startupAfterPlatformCheck t rf
  else MainOutcome.exited 1 0

/-! The monitoring loop, lines 138-154, and the Notifier publish path. -/

/-- Observable effects of one pass of the loop body. -/
inductive Effect
  | consoleLine (s : String)
  | coroutineCreated (queue : String) (data : String)
  | serviceBusSend (queue : String) (payload : String)
  | sleepSeconds (n : Nat)
deriving DecidableEq

/-- The coroutine object returned by calling the async method pushData at
    line 149. Python evaluates the arguments and builds the object but does
    not run the body of an async def at call time. -/
structure PyCoroutine where
  queue_name : String
  data : String
  started : Bool
deriving DecidableEq

/-- Calling pushData without await or asyncio.run: the coroutine is created
    with its arguments bound and is then discarded; started stays false, so
    lines 86-94 (client setup and send_messages) never execute and no
    exception escapes the call. -/
def pushData_unawaited_call (queue : String) (data : String) : PyCoroutine :=
  { queue_name := queue, data := data, started := false }

def queue_name : String := "my_queue"

/-- The f-string payload built at line 149. -/
def payloadString (timeS temp : String) : String :=
  "\x7b\"time\": \"" ++ timeS ++ "\", \"temperature\": \"" ++ temp ++ "\"\x7d"

/-- What the publish statement at line 149 actually does: create a coroutine
    object and return at once, raising nothing and sending nothing. -/
def actualPublishStep (queue : String) (data : String) : Except PyError (List Effect) :=
  let co := pushData_unawaited_call queue data
  Except.ok [Effect.coroutineCreated co.queue_name co.data]

/-- One pass of the loop body, lines 143-154: timestamp, read (an error
    propagates uncaught), console line, payload, publish step wrapped in
    try/except (a failure is printed and swallowed), sleep 300 seconds.
    reprTemp models the Python str rendering of a float in the f-strings;
    publishStep is the statement inside the try, receiving the queue name
    and the payload. -/
def tickBody (timeS : String) (readResult : Except PyError PyFloat)
    (reprTemp : PyFloat → String)
    (publishStep : String → String → Except PyError (List Effect)) :
    Except PyError (List Effect) :=
  match readResult with
  | Except.error e => Except.error e
  | Except.ok temp =>
    let pubEffects :=
      match publishStep queue_name (payloadString timeS (reprTemp temp)) with
      | Except.ok effs => effs
      | Except.error e =>
        [Effect.consoleLine ("Error: " ++ errMsg e ++ "\n\rUnable to send data to Azure Service Bus Queue!")]
    Except.ok ([Effect.consoleLine ("[" ++ timeS ++ "]\t" ++ reprTemp temp)] ++
      pubEffects ++ [Effect.sleepSeconds 300])

/-- State of the while True loop after a number of modelled iterations. -/
inductive LoopResult
  | running (ticksCompleted : Nat) (trace : List Effect)
  | crashed (ticksCompleted : Nat) (err : PyError)
deriving DecidableEq

/-- Run the first n iterations of the while True loop; times, reads and pubs
    give, per tick index, the formatted clock time, the sensor read outcome
    and the outcome of the statement inside the try block. -/
def runTicks (times : Nat → String) (reads : Nat → Except PyError PyFloat)
    (pubs : Nat → Except PyError (List Effect)) (reprT : PyFloat → String) :
    Nat → LoopResult
  | 0 => LoopResult.running 0 []
  | n + 1 =>
    match runTicks times reads pubs reprT n with
    | LoopResult.crashed k e => LoopResult.crashed k e
    | LoopResult.running k tr =>
      match tickBody (times n) (reads n) reprT (fun _ _ => pubs n) with
      | Except.ok effs => LoopResult.running (k + 1) (tr ++ effs)
      | Except.error e => LoopResult.crashed k e

def completedTicks : LoopResult → Nat
  | LoopResult.running k _ => k
  | LoopResult.crashed k _ => k

def stillRunning : LoopResult → Bool
  | LoopResult.running _ _ => true
  | LoopResult.crashed _ _ => false

def readOk : Except PyError PyFloat → Bool
  | Except.ok _ => true
  | Except.error _ => false

/-- The serviceBusSend effects contained in a trace: the messages actually
    handed to the external messaging capability. -/
def sendsOf : List Effect → List (String × String)
  | [] => []
  | Effect.serviceBusSend q p :: rest => (q, p) :: sendsOf rest
  | _ :: rest => sendsOf rest

/-! Specification-side definitions used for comparison. -/

/-- A JSON-like value as the specification words it: a quoted string or a
    bare numeric literal. -/
inductive JVal
  | jstr (s : String)
  | jnum (q : ℚ)

def renderJVal : JVal → String
  | JVal.jstr s => "\"" ++ s ++ "\""
  | JVal.jnum q => toString q

/-- Comma-and-space separated field list. -/
def joinFields : List String → String
  | [] => ""
  | [f] => f
  | f :: g :: rest => f ++ ", " ++ joinFields (g :: rest)

/-- Rendering of an object with the given fields in order. -/
def renderJObj (fields : List (String × JVal)) : String :=
  "\x7b" ++ joinFields (fields.map (fun f => "\"" ++ f.1 ++ "\": " ++ renderJVal f.2)) ++ "\x7d"

/-- Wire-protocol suffix as the specification words it: a decimal integer,
    that is a nonempty string of ASCII digits. -/
def isDecimalDigits (s : String) : Bool :=
  !s.data.isEmpty && s.data.all isDig

/-- Value of a nonempty string of ASCII digits. -/
def decimalVal (s : String) : Nat :=
  s.data.foldl (fun a c => 10 * a + digitVal c) 0

/-- Containment of one character run inside another, used to state whether
    an error message carries a given raw line. -/
def startsWithRun : List Char → List Char → Bool
  | [], _ => true
  | _ :: _, [] => false
  | a :: as, b :: bs => a = b && startsWithRun as bs

def containsRun (needle : List Char) : List Char → Bool
  | [] => needle.isEmpty
  | h :: t => startsWithRun needle (h :: t) || containsRun needle t

/-! Helper lemmas about the character classes and the float grammar. -/

lemma isPyWs_eq_false_of_isDig {c : Char} (h : isDig c = true) : isPyWs c = false := by
  simp only [isDig, decide_eq_true_eq] at h
  simp only [isPyWs, decide_eq_false_iff_not]
  omega

lemma asciiLower_of_isDig {c : Char} (h : isDig c = true) : asciiLower c = c := by
  simp only [isDig, decide_eq_true_eq] at h
  unfold asciiLower
  rw [if_neg (by omega)]

lemma isDig_ne_signs {c : Char} (h : isDig c = true) :
    c ≠ '+' ∧ c ≠ '-' ∧ c ≠ '_' := by
  refine ⟨?_, ?_, ?_⟩ <;> (rintro rfl; exact absurd h (by decide))

lemma dropWhileWs_of_digits (l : List Char) (hall : ∀ c ∈ l, isDig c = true) :
    l.dropWhile isPyWs = l := by
  cases l with
  | nil => rfl
  | cons c rest =>
    simp [List.dropWhile, isPyWs_eq_false_of_isDig (hall c (by simp))]

lemma stripWs_of_digits (l : List Char) (hall : ∀ c ∈ l, isDig c = true) :
    stripWs l = l := by
  unfold stripWs
  rw [dropWhileWs_of_digits l hall,
    dropWhileWs_of_digits l.reverse (fun c hc => hall c (List.mem_reverse.mp hc)),
    List.reverse_reverse]

lemma mapLower_of_digits (l : List Char) (hall : ∀ c ∈ l, isDig c = true) :
    l.map asciiLower = l := by
  induction l with
  | nil => rfl
  | cons c rest ih =>
    simp only [List.map_cons, asciiLower_of_isDig (hall c (by simp))]
    rw [ih (fun d hd => hall d (by simp [hd]))]

lemma parseDigitsAux_of_digits (l : List Char) (hall : ∀ c ∈ l, isDig c = true) :
    ∀ acc cnt, parseDigitsAux l false acc cnt =
      some (l.foldl (fun a c => 10 * a + digitVal c) acc, cnt + l.length, []) := by
  induction l with
  | nil => intro acc cnt; simp [parseDigitsAux]
  | cons c rest ih =>
    intro acc cnt
    have hc : isDig c = true := hall c (by simp)
    simp only [parseDigitsAux, hc, if_true, List.foldl_cons, List.length_cons]
    rw [ih (fun d hd => hall d (by simp [hd]))]
    have harr : cnt + 1 + rest.length = cnt + (rest.length + 1) := by omega
    rw [harr]

lemma pyStrToFloat_of_decimalDigits (s : String) (h : isDecimalDigits s = true) :
    pyStrToFloat s = some (PyFloat.finite ((decimalVal s : ℚ))) := by
  have hne : s.data ≠ [] := by
    simp only [isDecimalDigits, Bool.and_eq_true, Bool.not_eq_true'] at h
    simpa [List.isEmpty_iff] using h.1
  have hall : ∀ c ∈ s.data, isDig c = true := by
    simp only [isDecimalDigits, Bool.and_eq_true, List.all_eq_true] at h
    exact fun c hc => h.2 c hc
  obtain ⟨c, rest, hcr⟩ : ∃ c rest, s.data = c :: rest := by
    cases hd : s.data with
    | nil => exact absurd hd hne
    | cons a b => exact ⟨a, b, rfl⟩
  have hallc : ∀ x ∈ c :: rest, isDig x = true := hcr ▸ hall
  have hc : isDig c = true := hallc c (by simp)
  obtain ⟨hplus, hminus, _⟩ := isDig_ne_signs hc
  unfold pyStrToFloat
  rw [stripWs_of_digits s.data hall, hcr]
  show (if c = '+' then parseUnsignedPy rest false
    else if c = '-' then parseUnsignedPy rest true
    else parseUnsignedPy (c :: rest) false) = some (PyFloat.finite ((decimalVal s : ℚ)))
  rw [if_neg hplus, if_neg hminus]
  unfold parseUnsignedPy
  rw [mapLower_of_digits (c :: rest) hallc]
  rw [if_neg ?hinf]
  case hinf =>
    rintro (habs | habs) <;>
      (rw [habs] at hallc; exact absurd (hallc 'i' (by simp)) (by decide))
  rw [if_neg ?hnan]
  case hnan =>
    intro habs
    rw [habs] at hallc; exact absurd (hallc 'n' (by simp)) (by decide)
  have hrest : ∀ x ∈ rest, isDig x = true := fun x hx => hallc x (by simp [hx])
  have hud : parseUDigits (c :: rest) =
      some ((c :: rest).foldl (fun a d => 10 * a + digitVal d) 0, 1 + rest.length, []) := by
    show (if isDig c = true then parseDigitsAux rest false (digitVal c) 1 else none) =
      some ((c :: rest).foldl (fun a d => 10 * a + digitVal d) 0, 1 + rest.length, [])
    rw [if_pos hc, parseDigitsAux_of_digits rest hrest (digitVal c) 1]
    rw [List.foldl_cons]
    norm_num
  unfold parseMantissa
  rw [hud]
  simp only [parseExp, if_pos rfl]
  have hdv : decimalVal s = (c :: rest).foldl (fun a d => 10 * a + digitVal d) 0 := by
    unfold decimalVal; rw [hcr]
  rw [hdv]
  norm_num

/-! Helper lemmas about get_temperature. -/

lemma get_temperature_connected (r : String) (rs : List String) (rf : String → String) :
    get_temperature ⟨r :: rs⟩ rf =
      match (pySplit '\n' (rf r))[1]? with
      | none => Except.error (PyError.indexError "list index out of range")
      | some second_line =>
        match (pySplit ' ' second_line)[9]? with
        | none => Except.error (PyError.indexError "list index out of range")
        | some temperature_data =>
          match pyStrToFloat (pyDrop 2 temperature_data) with
          | none => Except.error (PyError.valueError
              ("could not convert string to float: " ++ pyDrop 2 temperature_data))
          | some v => Except.ok (pyFloatDiv1000 v) := by
  unfold get_temperature
  rw [if_pos (by simp [check_thermometer_connection])]
  have h0 : listIndex (r :: rs) 0 = Except.ok r := by simp [listIndex]
  rw [h0]
  cases h1 : (pySplit '\n' (rf r))[1]? with
  | none => simp [listIndex, h1]
  | some second_line =>
    simp only [listIndex, h1]
    cases h2 : (pySplit ' ' second_line)[9]? with
    | none => simp [h2]
    | some temperature_data =>
      simp only [h2]
      cases h3 : pyStrToFloat (pyDrop 2 temperature_data) with
      | none => simp [floatCall, h3]
      | some v => simp [floatCall, h3]

lemma pyDrop_two_of_append (pre suf : String) (h : pre.length = 2) :
    pyDrop 2 (pre ++ suf) = suf := by
  unfold pyDrop
  rw [String.data_append]
  have h2 : pre.data.length = 2 := h
  rw [← h2, List.drop_left]

/-! Helper lemmas about the monitoring loop. -/

lemma tickBody_ok (timeS : String) (v : PyFloat) (reprT : PyFloat → String)
    (publishStep : String → String → Except PyError (List Effect)) :
    ∃ effs, tickBody timeS (Except.ok v) reprT publishStep = Except.ok effs ∧
      effs.getLast? = some (Effect.sleepSeconds 300) := by
  cases h : publishStep queue_name (payloadString timeS (reprT v)) with
  | ok effs =>
    refine ⟨[Effect.consoleLine ("[" ++ timeS ++ "]\t" ++ reprT v)] ++ effs ++
      [Effect.sleepSeconds 300], ?_, ?_⟩
    · simp only [tickBody, h]
    · rw [List.getLast?_concat]
  | error e =>
    refine ⟨[Effect.consoleLine ("[" ++ timeS ++ "]\t" ++ reprT v)] ++
      [Effect.consoleLine ("Error: " ++ errMsg e ++ "\n\rUnable to send data to Azure Service Bus Queue!")] ++
      [Effect.sleepSeconds 300], ?_, ?_⟩
    · simp only [tickBody, h]
    · rw [List.getLast?_concat]

lemma runTicks_ok (times : Nat → String) (reads : Nat → Except PyError PyFloat)
    (pubs : Nat → Except PyError (List Effect)) (reprT : PyFloat → String) :
    ∀ n, (∀ k, k < n → readOk (reads k) = true) →
      ∃ tr, runTicks times reads pubs reprT n = LoopResult.running n tr := by
  intro n
  induction n with
  | zero => intro _; exact ⟨[], rfl⟩
  | succ m ih =>
    intro h
    obtain ⟨tr, htr⟩ := ih (fun k hk => h k (Nat.lt_succ_of_lt hk))
    have hm : readOk (reads m) = true := h m (Nat.lt_succ_self m)
    obtain ⟨v, hv⟩ : ∃ v, reads m = Except.ok v := by
      cases hr : reads m with
      | ok w => exact ⟨w, rfl⟩
      | error e => rw [hr] at hm; exact absurd hm (by simp [readOk])
    obtain ⟨effs, heff, _⟩ := tickBody_ok (times m) v reprT (fun _ _ => pubs m)
    refine ⟨tr ++ effs, ?_⟩
    simp only [runTicks, htr, hv] at heff ⊢
    rw [heff]

lemma runTicks_crash (times : Nat → String) (reads : Nat → Except PyError PyFloat)
    (pubs : Nat → Except PyError (List Effect)) (reprT : PyFloat → String)
    (j : Nat) (e : PyError)
    (hpre : ∀ k, k < j → readOk (reads k) = true) (hj : reads j = Except.error e) :
    ∀ n, j < n → runTicks times reads pubs reprT n = LoopResult.crashed j e := by
  intro n
  induction n with
  | zero => intro h; exact absurd h (by omega)
  | succ m ih =>
    intro hlt
    rcases Nat.lt_succ_iff_lt_or_eq.mp hlt with hltm | heq
    · have hm := ih hltm
      simp only [runTicks, hm]
    · subst heq
      obtain ⟨tr, htr⟩ := runTicks_ok times reads pubs reprT j hpre
      simp only [runTicks, htr, hj, tickBody]

/-! Claim theorems. -/

/-- C1: the claim says every pushData call from the monitoring loop hands the
    serialized payload to the external messaging capability as a bounded
    synchronous call completing before the sleep. In the source the async
    pushData is called without await, so a tick with a successful read only
    creates a coroutine object and then sleeps: its trace contains no
    serviceBusSend effect at all, before or after the sleep. -/
theorem C1_publish_never_reaches_capability :
    ∀ (timeS : String) (v : PyFloat) (reprT : PyFloat → String),
      tickBody timeS (Except.ok v) reprT actualPublishStep =
        Except.ok [Effect.consoleLine ("[" ++ timeS ++ "]\t" ++ reprT v),
          Effect.coroutineCreated "my_queue" (payloadString timeS (reprT v)),
          Effect.sleepSeconds 300] ∧
      sendsOf [Effect.consoleLine ("[" ++ timeS ++ "]\t" ++ reprT v),
          Effect.coroutineCreated "my_queue" (payloadString timeS (reprT v)),
          Effect.sleepSeconds 300] = [] := by
  intro timeS v reprT
  exact ⟨rfl, rfl⟩

/-- C2 counterexample: on a device content whose second line has fewer than
    10 tokens the code raises a bare IndexError whose message does not carry
    the offending raw line (here the line is b c), refuting the claim that
    the failure carries the offending raw line. -/
theorem C2_error_does_not_carry_line :
    get_temperature ⟨["dev28"]⟩ (fun _ => "a\nb c") =
      Except.error (PyError.indexError "list index out of range") ∧
    containsRun ("b c").data ("list index out of range").data = false := by
  exact ⟨rfl, by decide⟩

/-- C2 amended: for every device content lacking a second line, or whose
    second line has fewer than 10 space-separated tokens, or whose 10th
    token after dropping two characters is not accepted by float, the read
    fails with an IndexError or a ValueError and never returns a Reading. -/
theorem C2_malformed_always_fails (r : String) (rs : List String) (rf : String → String)
    (h : (pySplit '\n' (rf r))[1]? = none ∨
      (∃ second_line, (pySplit '\n' (rf r))[1]? = some second_line ∧
        ((pySplit ' ' second_line)[9]? = none ∨
          ∃ tok, (pySplit ' ' second_line)[9]? = some tok ∧
            pyStrToFloat (pyDrop 2 tok) = none))) :
    ∃ msg, get_temperature ⟨r :: rs⟩ rf = Except.error (PyError.indexError msg) ∨
      get_temperature ⟨r :: rs⟩ rf = Except.error (PyError.valueError msg) := by
  rw [get_temperature_connected]
  rcases h with h1 | ⟨second_line, h1, h2 | ⟨tok, h2, h3⟩⟩
  · simp only [h1]
    exact ⟨_, Or.inl rfl⟩
  · simp only [h1, h2]
    exact ⟨_, Or.inl rfl⟩
  · simp only [h1, h2, h3]
    exact ⟨_, Or.inr rfl⟩

/-- C2 witness: a realistic content whose second line has only 9 tokens. -/
theorem C2_malformed_always_fails_witness :
    ∃ msg, get_temperature ⟨["dev28"]⟩ (fun _ => "72 01 4b 46 7f ff 0e 10 57 : crc=57 YES\n72 01 4b 46 7f ff 0e 10 57")
        = Except.error (PyError.indexError msg) ∨
      get_temperature ⟨["dev28"]⟩ (fun _ => "72 01 4b 46 7f ff 0e 10 57 : crc=57 YES\n72 01 4b 46 7f ff 0e 10 57")
        = Except.error (PyError.valueError msg) := by
  apply C2_malformed_always_fails
  exact Or.inr ⟨"72 01 4b 46 7f ff 0e 10 57", by decide, Or.inl (by decide)⟩

/-- C3: the claim says exit code 1 happens exactly on platform-precondition
    failure or initial-read failure, and that on a Linux host is_linux_os
    succeeds. In the source is_linux_os compares the imported platform
    module object to the strings linux and linux2, so it is false on every
    host, and the startup always exits with code 1 after zero diagnostic
    reads, even with hostPlatform equal to linux. -/
theorem C3_platform_check_always_fails :
    (∀ host : String, is_linux_os host = false) ∧
    (∀ (t : Thermometer) (rf : String → String),
      mainBootstrap "linux" t rf = MainOutcome.exited 1 0) := by
  exact ⟨fun _ => rfl, fun _ _ => rfl⟩

/-- C4: for every connected thermometer whose first device content has a
    second line with at least 10 space-separated tokens whose 10th token is
    any two-character prefix followed by a decimal integer, get_temperature
    returns exactly that integer divided by 1000. -/
theorem C4_wellformed_exact_value (r : String) (rs : List String) (rf : String → String)
    (second_line tok pre suf : String)
    (hline : (pySplit '\n' (rf r))[1]? = some second_line)
    (htok : (pySplit ' ' second_line)[9]? = some tok)
    (hsplit : tok = pre ++ suf) (hpre : pre.length = 2)
    (hsuf : isDecimalDigits suf = true) :
    get_temperature ⟨r :: rs⟩ rf = Except.ok (PyFloat.finite ((decimalVal suf : ℚ) / 1000)) := by
  rw [get_temperature_connected]
  simp only [hline, htok]
  rw [hsplit, pyDrop_two_of_append pre suf hpre, pyStrToFloat_of_decimalDigits suf hsuf]
  rfl

/-- C4 witness: a realistic w1_slave content ending in t=23562 yields
    exactly 23.562 degrees. -/
theorem C4_wellformed_exact_value_witness :
    get_temperature ⟨["dev0"]⟩ (fun _ => "crc ok\n4b 01 4b 46 7f ff 05 10 1c t=23562") =
      Except.ok (PyFloat.finite ((23562 : ℚ) / 1000)) := by
  have h := C4_wellformed_exact_value "dev0" []
    (fun _ => "crc ok\n4b 01 4b 46 7f ff 05 10 1c t=23562")
    "4b 01 4b 46 7f ff 05 10 1c t=23562" "t=23562" "t=" "23562"
    (by decide) (by decide) rfl (by decide) (by decide)
  have hd : ((decimalVal "23562" : ℚ)) = (23562 : ℚ) := by
    rw [show decimalVal "23562" = 23562 from by decide]
    norm_num
  rw [hd] at h
  exact h

/-- C5: isConnected is true iff the glob resolved at least one match; with
    zero matches get_temperature fails with DeviceNotFoundError, and the
    result does not depend on any file content (no file is read). -/
theorem C5_disconnected_device_error :
    (∀ t : Thermometer, check_thermometer_connection t = true ↔ t.ds18b20_roots ≠ []) ∧
    (∀ rf : String → String, get_temperature ⟨[]⟩ rf = Except.error DeviceNotFoundError) ∧
    (∀ rf rf' : String → String, get_temperature ⟨[]⟩ rf = get_temperature ⟨[]⟩ rf') := by
  refine ⟨?_, fun _ => rfl, fun _ _ => rfl⟩
  intro t
  cases t with
  | mk roots => cases roots <;> simp [check_thermometer_connection]

/-- C5 witness: one match gives a connected thermometer, zero matches give
    DeviceNotFoundError. -/
theorem C5_disconnected_device_error_witness :
    check_thermometer_connection ⟨["/sys/bus/w1/devices/28-0/w1_slave"]⟩ = true ∧
    get_temperature ⟨[]⟩ (fun _ => "") = Except.error DeviceNotFoundError := by
  exact ⟨(C5_disconnected_device_error.1 _).mpr (by simp),
    C5_disconnected_device_error.2.1 _⟩

/-- C6: for any number of ticks with successful reads, and any per-tick
    outcome of the publish statement including failures, the loop is still
    running and has completed every tick; moreover every successful tick
    ends with the 300 second sleep whatever the publish outcome was, so the
    next tick runs after the configured interval. -/
theorem C6_publish_failure_never_stops_loop (n : Nat) (times : Nat → String)
    (reads : Nat → Except PyError PyFloat) (reprT : PyFloat → String)
    (h : ∀ k, k < n → readOk (reads k) = true) :
    ∀ pubs : Nat → Except PyError (List Effect),
      stillRunning (runTicks times reads pubs reprT n) = true ∧
      completedTicks (runTicks times reads pubs reprT n) = n ∧
      (∀ (timeS : String) (v : PyFloat) (pubResult : Except PyError (List Effect)),
        ∃ effs, tickBody timeS (Except.ok v) reprT (fun _ _ => pubResult) = Except.ok effs ∧
          effs.getLast? = some (Effect.sleepSeconds 300)) := by
  intro pubs
  obtain ⟨tr, htr⟩ := runTicks_ok times reads pubs reprT n h
  refine ⟨by rw [htr]; rfl, by rw [htr]; rfl, ?_⟩
  intro timeS v pubResult
  exact tickBody_ok timeS v reprT (fun _ _ => pubResult)

/-- C6 witness: two ticks where the publish of tick 0 fails; tick 1 still
    executes and the loop is running with both ticks completed. -/
theorem C6_publish_failure_never_stops_loop_witness :
    stillRunning (runTicks (fun _ => "10:00:00") (fun _ => Except.ok (PyFloat.finite 21))
      (fun k => if k = 0 then Except.error (PyError.exception "service bus unreachable")
        else Except.ok [])
      (fun _ => "21") 2) = true ∧
    completedTicks (runTicks (fun _ => "10:00:00") (fun _ => Except.ok (PyFloat.finite 21))
      (fun k => if k = 0 then Except.error (PyError.exception "service bus unreachable")
        else Except.ok [])
      (fun _ => "21") 2) = 2 := by
  have h := C6_publish_failure_never_stops_loop 2 (fun _ => "10:00:00")
    (fun _ => Except.ok (PyFloat.finite 21)) (fun _ => "21")
    (fun k _ => rfl)
    (fun k => if k = 0 then Except.error (PyError.exception "service bus unreachable")
      else Except.ok [])
  exact ⟨h.1, h.2.1⟩

/-- C7: the claim says exactly one diagnostic read runs before the loop and
    a failing read exits with code 1 before the loop. In the source the
    broken platform check exits first on every host, so the startup performs
    zero diagnostic reads; the diagnostic-read fragment itself, if reached,
    does perform the single read and exits 1 without entering the loop when
    the thermometer resolved zero matches. -/
theorem C7_startup_exits_before_any_read :
    (∀ (host : String) (t : Thermometer) (rf : String → String),
      mainBootstrap host t rf = MainOutcome.exited 1 0) ∧
    (∀ rf : String → String,
      startupAfterPlatformCheck ⟨[]⟩ rf = MainOutcome.exited 1 1) := by
  exact ⟨fun _ _ _ => rfl, fun _ => rfl⟩

/-- C8: the payload built by the loop is exactly the two-field object with
    the time string and the temperature rendered as a quoted string, and the
    queue name is the fixed string my_queue; a recording publish step
    receives exactly that queue name and payload. -/
theorem C8_payload_two_string_fields :
    (∀ timeS temp : String,
      payloadString timeS temp =
        renderJObj [("time", JVal.jstr timeS), ("temperature", JVal.jstr temp)]) ∧
    queue_name = "my_queue" ∧
    (∀ (timeS : String) (v : PyFloat) (reprT : PyFloat → String),
      tickBody timeS (Except.ok v) reprT
          (fun q p => Except.ok [Effect.serviceBusSend q p]) =
        Except.ok [Effect.consoleLine ("[" ++ timeS ++ "]\t" ++ reprT v),
          Effect.serviceBusSend "my_queue"
            (renderJObj [("time", JVal.jstr timeS), ("temperature", JVal.jstr (reprT v))]),
          Effect.sleepSeconds 300]) := by
  have hpayload : ∀ timeS temp : String,
      payloadString timeS temp =
        renderJObj [("time", JVal.jstr timeS), ("temperature", JVal.jstr temp)] := by
    intro timeS temp
    apply String.ext
    simp [payloadString, renderJObj, joinFields, renderJVal, String.data_append]
  refine ⟨hpayload, rfl, ?_⟩
  intro timeS v reprT
  rw [← hpayload]
  rfl

/-- C9: with successful reads the loop completes every tick and keeps
    running for every horizon (unbounded); the first failing sensor read at
    tick j propagates uncaught, crashes the loop after exactly j completed
    ticks, and later horizons stay crashed with that same error. -/
theorem C9_sensor_failure_stops_loop (times : Nat → String)
    (reads : Nat → Except PyError PyFloat) (pubs : Nat → Except PyError (List Effect))
    (reprT : PyFloat → String) :
    (∀ n, (∀ k, k < n → readOk (reads k) = true) →
      ∃ tr, runTicks times reads pubs reprT n = LoopResult.running n tr) ∧
    (∀ j e, (∀ k, k < j → readOk (reads k) = true) → reads j = Except.error e →
      ∀ n, j < n → runTicks times reads pubs reprT n = LoopResult.crashed j e) := by
  exact ⟨runTicks_ok times reads pubs reprT,
    fun j e hpre hj => runTicks_crash times reads pubs reprT j e hpre hj⟩

/-- C9 witness: the read of tick 1 fails, so after 3 scheduled iterations
    the loop is crashed with that error and completed exactly one tick. -/
theorem C9_sensor_failure_stops_loop_witness :
    runTicks (fun _ => "10:05:00")
      (fun k => if k = 0 then Except.ok (PyFloat.finite 20)
        else Except.error (PyError.indexError "list index out of range"))
      (fun _ => Except.ok []) (fun _ => "20") 3 =
      LoopResult.crashed 1 (PyError.indexError "list index out of range") := by
  exact (C9_sensor_failure_stops_loop (fun _ => "10:05:00")
      (fun k => if k = 0 then Except.ok (PyFloat.finite 20)
        else Except.error (PyError.indexError "list index out of range"))
      (fun _ => Except.ok []) (fun _ => "20")).2
    1 (PyError.indexError "list index out of range")
    (by intro k hk; have hk0 : k = 0 := by omega
        subst hk0; rfl)
    (by rfl) 3 (by omega)

/-- C10: get_temperature validates neither the two-character prefix of the
    10th token nor that its suffix is a decimal integer: for any
    two-character prefix and any suffix accepted by the float grammar it
    returns a Reading with the parsed value divided by 1000 instead of
    failing. -/
theorem C10_prefix_and_suffix_unvalidated (r : String) (rs : List String)
    (rf : String → String) (second_line tok pre suf : String) (v : PyFloat)
    (hline : (pySplit '\n' (rf r))[1]? = some second_line)
    (htok : (pySplit ' ' second_line)[9]? = some tok)
    (hsplit : tok = pre ++ suf) (hpre : pre.length = 2)
    (hfloat : pyStrToFloat suf = some v) :
    get_temperature ⟨r :: rs⟩ rf = Except.ok (pyFloatDiv1000 v) := by
  rw [get_temperature_connected]
  simp only [hline, htok]
  rw [hsplit, pyDrop_two_of_append pre suf hpre, hfloat]

/-- C10 witness: the junk prefix xy is accepted with a numeric suffix, and
    the non-integer suffix nan is accepted as well, each producing a
    Reading. -/
theorem C10_prefix_and_suffix_unvalidated_witness :
    get_temperature ⟨["da"]⟩ (fun _ => "x\na b c d e f g h i xy23562") =
      Except.ok (PyFloat.finite ((23562 : ℚ) / 1000)) ∧
    get_temperature ⟨["db"]⟩ (fun _ => "x\na b c d e f g h i t=nan") =
      Except.ok PyFloat.nan := by
  constructor
  · have h := C10_prefix_and_suffix_unvalidated "da" []
      (fun _ => "x\na b c d e f g h i xy23562")
      "a b c d e f g h i xy23562" "xy23562" "xy" "23562"
      (PyFloat.finite ((decimalVal "23562" : ℚ)))
      (by decide) (by decide) rfl (by decide)
      (pyStrToFloat_of_decimalDigits "23562" (by decide))
    have hd : ((decimalVal "23562" : ℚ)) = (23562 : ℚ) := by
      rw [show decimalVal "23562" = 23562 from by decide]
      norm_num
    rw [hd] at h
    exact h
  · exact C10_prefix_and_suffix_unvalidated "db" []
      (fun _ => "x\na b c d e f g h i t=nan")
      "a b c d e f g h i t=nan" "t=nan" "t=" "nan" PyFloat.nan
      (by decide) (by decide) rfl (by decide) (by decide)
